import Mathlib

/-!
Shallow embedding of the BNEP connection-setup core of `network/server.c`
(BlueZ PAN network server): the per-connection setup session, the setup-request
handler `connect_setup_event`, the role check `chk_role`, the listener
`connect_event`, the teardown `setup_watch_destroy` / `setup_timeout`, and the
authorization resolution handler `authorization_callback`.

Machine integers are modelled as `Nat`; the received packet is a byte list
(reads past the received length yield 0, matching the zero-filled `pkt`
buffer the C code `recv`s into).  External collaborators (D-Bus object
lookup, `bnep_connadd`, `bridge_get_name`, `bridge_add_interface`,
`bnep_if_up`, the D-Bus send in `authorize_connection`) are passed in as
explicit parameters describing their outcome.
-/

/-! ### Constants

Numeric constants from `bluetooth/bnep.h` (the BNEP specification values the
code uses) and from `network/server.c` line 58. -/

def BNEP_SUCCESS : Nat := 0x0000
def BNEP_CONN_INVALID_DST : Nat := 0x0001
def BNEP_CONN_INVALID_SRC : Nat := 0x0002
def BNEP_CONN_INVALID_SVC : Nat := 0x0003
def BNEP_CONN_NOT_ALLOWED : Nat := 0x0004

def BNEP_CONTROL : Nat := 0x01
def BNEP_SETUP_CONN_REQ : Nat := 0x01
def BNEP_SETUP_CONN_RSP : Nat := 0x02

def BNEP_SVC_PANU : Nat := 0x1115
def BNEP_SVC_NAP : Nat := 0x1116
def BNEP_SVC_GN : Nat := 0x1117

/-- `#define MAX_SETUP_ATTEMPTS 3`, server.c line 58. -/
def MAX_SETUP_ATTEMPTS : Nat := 3

/-! ### Data model -/

/-- `struct setup_session` (server.c lines 65-73).  The socket fd and the two
GLib source ids are not modelled as numbers; `timeout` records whether the
setup deadline timer source is still armed. -/
structure SetupSession where
  address : String
  dst_role : Nat
  src_role : Nat
  attempts : Nat
  timeout : Bool
deriving DecidableEq

/-- `struct network_server` (server.c lines 76-86), restricted to the fields
the setup path reads and writes: the `enable` flag and the `clients` list of
admitted peer addresses. -/
structure NetworkServer where
  enable : Bool
  clients : List String
deriving DecidableEq

/-! ### Role compatibility -/

/-- `chk_role` (server.c lines 418-437), verbatim: the switch on the first
parameter `dst_role`, returning 0 for an accepted pair. -/
def chk_role (dst_role src_role : Nat) : Nat :=
  if dst_role = BNEP_SVC_NAP ∨ dst_role = BNEP_SVC_GN then
    if src_role = BNEP_SVC_PANU then 0 else BNEP_CONN_INVALID_SRC
  else if dst_role = BNEP_SVC_PANU then
    if src_role = BNEP_SVC_PANU ∨ src_role = BNEP_SVC_GN ∨ src_role = BNEP_SVC_NAP then 0
    else BNEP_CONN_INVALID_SRC
  else BNEP_CONN_INVALID_DST

/-! ### Packet parsing -/

/-- Byte `i` of the receive buffer: the C code zero-fills `pkt` before
`recv`, so a read beyond the received length yields 0. -/
def byteAt (pkt : List Nat) (i : Nat) : Nat := pkt.getD i 0

/-- Big-endian 16-bit read at offset `i` (`ntohs(bt_get_unaligned(...))`). -/
def be16 (pkt : List Nat) (i : Nat) : Nat := byteAt pkt i * 256 + byteAt pkt (i + 1)

/-- Destination role: 2 bytes right after the 3-byte
`bnep_setup_conn_req` header (server.c line 485). -/
def parse_dst (pkt : List Nat) : Nat := be16 pkt 3

/-- Source role: 2 bytes at offset 3 + `uuid_size` (server.c lines 486-488). -/
def parse_src (pkt : List Nat) : Nat := be16 pkt (3 + byteAt pkt 2)

/-! ### Setup-request handler -/

/-- The condition bits `connect_setup_event` dispatches on. -/
inductive GIOCond where
  | ioIn
  | errHup
  | nval
deriving DecidableEq

/-- Observable outcome of one `connect_setup_event` invocation: the updated
session, the list of response codes passed to `send_bnep_ctrl_rsp`, the number
of `RequestAuthorization` calls issued, the number of
`CancelAuthorizationRequest` calls issued, and the gboolean return value
(FALSE removes the watch, whose destroy notify tears the session down). -/
structure SetupEventResult where
  session : SetupSession
  sent : List Nat
  authReqs : Nat
  cancels : Nat
  keepSource : Bool
deriving DecidableEq

/-- Tail of `connect_setup_event` from the role check on (server.c lines
490-523), after `dst_role`/`src_role` have been stored in the session.
`lookup` models `dbus_connection_get_object_user_data` on the path built from
`bnep_name(s->dst_role)`; `dbusOk` models whether
`authorize_connection` managed to send its D-Bus call.  Note the source calls
`chk_role(s->src_role, s->dst_role)` — arguments swapped relative to the
parameter order `chk_role(dst_role, src_role)`. -/
def setup_decision (s : SetupSession) (lookup : Nat → Option NetworkServer)
    (dbusOk : Bool) : SetupEventResult :=
  if chk_role s.src_role s.dst_role ≠ 0 then
    ⟨s, [chk_role s.src_role s.dst_role], 0, 0, false⟩
  else
    match lookup s.dst_role with
    | none => ⟨s, [BNEP_CONN_NOT_ALLOWED], 0, 0, false⟩
    | some ns =>
      if ns.enable = false then ⟨s, [BNEP_CONN_NOT_ALLOWED], 0, 0, false⟩
      else if s.attempts + 1 > MAX_SETUP_ATTEMPTS then
        ⟨{ s with timeout := false, attempts := s.attempts + 1 },
          [BNEP_CONN_NOT_ALLOWED], 0, 0, false⟩
      else if dbusOk then
        ⟨{ s with timeout := false, attempts := s.attempts + 1 }, [], 1, 0, true⟩
      else
        ⟨{ s with timeout := false, attempts := s.attempts + 1 },
          [BNEP_CONN_NOT_ALLOWED], 0, 0, false⟩

/-- `connect_setup_event` (server.c lines 439-523).  On `G_IO_NVAL` it
returns FALSE silently; on error/hangup it cancels the authorization when
`s->attempts` is nonzero and returns FALSE; on input it validates the packet
size, then the packet type/opcode, then hands over to the role/server/retry
decision. -/
def connect_setup_event (cond : GIOCond) (s : SetupSession) (pkt : List Nat)
    (lookup : Nat → Option NetworkServer) (dbusOk : Bool) : SetupEventResult :=
  match cond with
  | GIOCond.nval => ⟨s, [], 0, 0, false⟩
  | GIOCond.errHup => ⟨s, [], 0, if s.attempts ≠ 0 then 1 else 0, false⟩
  | GIOCond.ioIn =>
    if byteAt pkt 2 ≠ 2 ∨ pkt.length ≠ 3 + byteAt pkt 2 * 2 then
      ⟨s, [BNEP_CONN_INVALID_SVC], 0, 0, false⟩
    else if byteAt pkt 0 ≠ BNEP_CONTROL ∨ byteAt pkt 1 ≠ BNEP_SETUP_CONN_REQ then
      ⟨s, [], 0, 0, false⟩
    else
      setup_decision { s with dst_role := parse_dst pkt, src_role := parse_src pkt }
        lookup dbusOk

/-! ### Listener -/

/-- A fresh session as `connect_event` builds it: `g_new0` zeroes every field,
`attempts = 0`, the setup deadline timer armed (server.c lines 574-587). -/
def newSetupSession (peer : String) : SetupSession :=
  { address := peer, dst_role := 0, src_role := 0, attempts := 0, timeout := true }

/-- Outcome of one accepted connection in `connect_event`: the resulting
session list and whether the freshly accepted socket was closed. -/
structure ConnectResult where
  sessions : List SetupSession
  closedNew : Bool
deriving DecidableEq

/-- `connect_event`, accept path (server.c lines 557-591): if
`g_slist_find_custom(setup_sessions, peer, setup_cmp)` finds a live session
with the same address the new socket is closed and nothing else happens;
otherwise a fresh session is appended. -/
def connect_event (sessions : List SetupSession) (peer : String) : ConnectResult :=
  if sessions.any fun t => t.address = peer then ⟨sessions, true⟩
  else ⟨sessions ++ [newSetupSession peer], false⟩

/-! ### Teardown -/

/-- Outcome of a teardown entry point: the surviving session list and the
response codes sent on the wire (always none). -/
structure DestroyResult where
  sessions : List SetupSession
  sent : List Nat
deriving DecidableEq

/-- `setup_watch_destroy` (server.c lines 357-380): if the session is no
longer in `setup_sessions` it does nothing; otherwise it removes the (first)
matching entry, removes the watch and timer sources and frees the session.
It never sends anything on the wire. -/
def setup_watch_destroy (sessions : List SetupSession) (s : SetupSession) :
    DestroyResult :=
  if s ∈ sessions then ⟨sessions.erase s, []⟩ else ⟨sessions, []⟩

/-- `setup_timeout` (server.c lines 525-529): deadline expiry just runs
`setup_watch_destroy` and removes the timer source. -/
def setup_timeout (sessions : List SetupSession) (s : SetupSession) :
    DestroyResult :=
  setup_watch_destroy sessions s

/-! ### Authorization resolution -/

set_option linter.unusedVariables false

/-- The three terminal outcomes `authorization_callback` distinguishes on the
D-Bus reply: no error set (approved), an error named
`DBUS_ERROR_NO_REPLY` (no reply / timeout), any other error (explicit
denial). -/
inductive AuthReply where
  | approved
  | denied
  | noReply
deriving DecidableEq

/-- Observable outcome of `authorization_callback`: responses passed to
`send_bnep_ctrl_rsp`, number of `CancelAuthorizationRequest` calls issued,
and the post-state of the target server instance (`none` when the D-Bus
path lookup found no server). -/
structure AuthCallbackResult where
  sent : List Nat
  cancels : Nat
  server : Option NetworkServer
deriving DecidableEq

/-- `authorization_callback` (server.c lines 294-355).  Order of checks is
the source's: (1) if the session is no longer in `setup_sessions` the late
reply is dropped with no response; (2) the server instance is looked up
again by `bnep_name(s->dst_role)` and a missing or disabled server yields
`BNEP_CONN_NOT_ALLOWED` (before the reply is even examined); (3) an error
reply yields `BNEP_CONN_NOT_ALLOWED`, with a cancellation issued only for
`DBUS_ERROR_NO_REPLY`; (4) on approval, `bnep_connadd` failure or — when
`bridge_get_name(ns->id)` is configured — `bridge_add_interface` failure
yields `BNEP_CONN_NOT_ALLOWED`; otherwise the response is `BNEP_SUCCESS` and
the peer address is appended to `ns->clients`.  `bnep_if_up` is invoked on
both success paths but its return value is ignored by the source, which is
why `ifUpOk` does not influence the result. -/
def authorization_callback (sessions : List SetupSession) (s : SetupSession)
    (lookup : Nat → Option NetworkServer) (reply : AuthReply)
    (connaddOk : Bool) (bridge : Option String) (bridgeAddOk : Bool)
    (ifUpOk : Bool) : AuthCallbackResult :=
  if s ∈ sessions then
    match lookup s.dst_role with
    | none => ⟨[BNEP_CONN_NOT_ALLOWED], 0, none⟩
    | some ns =>
      if ns.enable = false then ⟨[BNEP_CONN_NOT_ALLOWED], 0, some ns⟩
      else
        match reply with
        | AuthReply.denied => ⟨[BNEP_CONN_NOT_ALLOWED], 0, some ns⟩
        | AuthReply.noReply => ⟨[BNEP_CONN_NOT_ALLOWED], 1, some ns⟩
        | AuthReply.approved =>
          if connaddOk = false then ⟨[BNEP_CONN_NOT_ALLOWED], 0, some ns⟩
          else
            match bridge with
            | some _ =>
              if bridgeAddOk = false then ⟨[BNEP_CONN_NOT_ALLOWED], 0, some ns⟩
              else ⟨[BNEP_SUCCESS], 0,
                some { ns with clients := ns.clients ++ [s.address] }⟩
            | none => ⟨[BNEP_SUCCESS], 0,
                some { ns with clients := ns.clients ++ [s.address] }⟩
  else ⟨[], 0, lookup s.dst_role⟩

/-! ### Per-session authorization bookkeeping

A small event system over one session, used to reason about how many
`RequestAuthorization` calls can be outstanding at once.  `pendingAuths`
counts issued-but-unresolved authorization requests; `live` records whether
the session is still in `setup_sessions`. -/

structure AuthState where
  session : SetupSession
  pendingAuths : Nat
  live : Bool
deriving DecidableEq

/-- Events a live session can see: a readable packet, the resolution of one
outstanding authorization request (whose destroy notify tears the session
down), or a transport hangup. -/
inductive NetEvent where
  | packet (pkt : List Nat)
  | resolve
  | hangup
deriving DecidableEq

/-- One event step.  A packet runs `connect_setup_event` on the live session:
every `RequestAuthorization` it issues becomes one more pending call, and a
FALSE return destroys the session.  A resolution consumes one pending call
and (via the pending call's destroy notify, `setup_watch_destroy`) removes
the session.  A hangup destroys the session. -/
def stepNet (lookup : Nat → Option NetworkServer) (dbusOk : Bool)
    (st : AuthState) (ev : NetEvent) : AuthState :=
  match ev with
  | NetEvent.packet pkt =>
    if st.live then
      let r := connect_setup_event GIOCond.ioIn st.session pkt lookup dbusOk
      ⟨r.session, st.pendingAuths + r.authReqs, r.keepSource⟩
    else st
  | NetEvent.resolve =>
    if 0 < st.pendingAuths then ⟨st.session, st.pendingAuths - 1, false⟩ else st
  | NetEvent.hangup =>
    if st.live then ⟨st.session, st.pendingAuths, false⟩ else st

/-- Run a session from its freshly accepted state through a list of events. -/
def runNet (lookup : Nat → Option NetworkServer) (dbusOk : Bool) (peer : String)
    (evs : List NetEvent) : AuthState :=
  evs.foldl (stepNet lookup dbusOk) ⟨newSetupSession peer, 0, true⟩

/-! ### Concrete fixtures for witnesses and counterexamples -/

/-- An enabled NAP server with no admitted clients. -/
def demoServer : NetworkServer := { enable := true, clients := [] }

/-- Server lookup with only the NAP instance registered and enabled. -/
def demoLookup : Nat → Option NetworkServer := fun role =>
  if role = BNEP_SVC_NAP then some demoServer else none

/-- A well-formed setup request: type CONTROL, ctrl SETUP_CONN_REQ,
uuid_size 2, dst = NAP (0x1116), src = PANU (0x1115). -/
def demoPkt : List Nat := [0x01, 0x01, 0x02, 0x11, 0x16, 0x11, 0x15]

/-- A setup request with dst = NAP (0x1116) and a src role 0x1234 that is
none of NAP, GN, PANU. -/
def badSrcPkt : List Nat := [0x01, 0x01, 0x02, 0x11, 0x16, 0x12, 0x34]

/-- A setup request with uuid_size 4 and dst = PANU, src = NAP encoded as
4-byte UUIDs, 11 = 3 + 2*4 bytes long. -/
def uuid4Pkt : List Nat :=
  [0x01, 0x01, 0x04, 0x11, 0x15, 0x00, 0x00, 0x11, 0x16, 0x00, 0x00]

/-- A fresh session from the demo peer. -/
def demoSession : SetupSession := newSetupSession "00:11:22:33:44:55"

/-- The demo session after a valid NAP setup request has been parsed into it. -/
def napSession : SetupSession :=
  { demoSession with dst_role := BNEP_SVC_NAP, src_role := BNEP_SVC_PANU }

/-! ### Theorem C7 -/

/-- Claim C7: for every pair of role values, `chk_role` returns exactly the
code given by the compatibility table or 0 (accept): 0 when dst is NAP or GN
and src is PANU, or dst is PANU and src is one of PANU, GN, NAP;
`INVALID_SRC` when dst is NAP, GN or PANU and src is anything else;
`INVALID_DST` for every other dst, regardless of src. -/
theorem chk_role_matches_table (dst src : Nat) :
    (chk_role dst src = 0 ↔
      ((dst = BNEP_SVC_NAP ∨ dst = BNEP_SVC_GN) ∧ src = BNEP_SVC_PANU) ∨
      (dst = BNEP_SVC_PANU ∧
        (src = BNEP_SVC_PANU ∨ src = BNEP_SVC_GN ∨ src = BNEP_SVC_NAP))) ∧
    (chk_role dst src = BNEP_CONN_INVALID_SRC ↔
      ((dst = BNEP_SVC_NAP ∨ dst = BNEP_SVC_GN) ∧ src ≠ BNEP_SVC_PANU) ∨
      (dst = BNEP_SVC_PANU ∧
        ¬(src = BNEP_SVC_PANU ∨ src = BNEP_SVC_GN ∨ src = BNEP_SVC_NAP))) ∧
    (chk_role dst src = BNEP_CONN_INVALID_DST ↔
      dst ≠ BNEP_SVC_NAP ∧ dst ≠ BNEP_SVC_GN ∧ dst ≠ BNEP_SVC_PANU) := by
  unfold chk_role BNEP_SVC_NAP BNEP_SVC_GN BNEP_SVC_PANU
    BNEP_CONN_INVALID_SRC BNEP_CONN_INVALID_DST
  split_ifs <;> simp_all <;> omega

/-! ### Theorem C3: size validation -/

/-- Claim C3: a received setup packet whose declared `uuid_size` differs
from 2, or whose byte count differs from the 3-byte header plus
2 × `uuid_size`, is answered with `BNEP_CONN_INVALID_SVC`, the watch is
dropped (session destroyed) and no authorization request is issued; this
check is the first one in `connect_setup_event`, before the packet-type and
role checks. -/
theorem invalid_size_rejected (s : SetupSession) (pkt : List Nat)
    (lookup : Nat → Option NetworkServer) (dbusOk : Bool)
    (h : byteAt pkt 2 ≠ 2 ∨ pkt.length ≠ 3 + byteAt pkt 2 * 2) :
    connect_setup_event GIOCond.ioIn s pkt lookup dbusOk =
      ⟨s, [BNEP_CONN_INVALID_SVC], 0, 0, false⟩ := by
  simp only [connect_setup_event]
  rw [if_pos h]

/-- Witness for C3 at the spec's own example: `uuid_size = 4`,
dst = PANU, src = NAP, 11 bytes — rejected with `INVALID_SVC` even though
the role pair would be acceptable. -/
theorem invalid_size_rejected_witness :
    (byteAt uuid4Pkt 2 ≠ 2 ∨ uuid4Pkt.length ≠ 3 + byteAt uuid4Pkt 2 * 2) ∧
    connect_setup_event GIOCond.ioIn demoSession uuid4Pkt demoLookup true =
      ⟨demoSession, [BNEP_CONN_INVALID_SVC], 0, 0, false⟩ :=
  ⟨by decide, invalid_size_rejected demoSession uuid4Pkt demoLookup true (by decide)⟩

/-! ### Theorem C1: the role rejection code actually sent -/

/-- Claim C1 (code bug): for a well-formed request with dst = NAP and a src
role 0x1234 that is not PANU, the claim (and `chk_role`'s own parameter
order) requires `INVALID_SRC`, but `connect_setup_event` calls
`chk_role(s->src_role, s->dst_role)` with swapped arguments and therefore
sends `INVALID_DST`. -/
theorem role_code_swapped_at_nap_badsrc :
    parse_dst badSrcPkt = BNEP_SVC_NAP ∧
    parse_src badSrcPkt ≠ BNEP_SVC_PANU ∧
    chk_role (parse_dst badSrcPkt) (parse_src badSrcPkt) = BNEP_CONN_INVALID_SRC ∧
    (connect_setup_event GIOCond.ioIn demoSession badSrcPkt demoLookup true).sent =
      [BNEP_CONN_INVALID_DST] ∧
    BNEP_CONN_INVALID_DST ≠ BNEP_CONN_INVALID_SRC := by decide

/-! ### Theorem C4: retry bound off-by-one -/

/-- Claim C4: on a valid setup request (right size, right type, acceptable
roles, server present and enabled, D-Bus send succeeding) the handler
increments `attempts` before comparing it with `MAX_SETUP_ATTEMPTS = 3`:
while the prior count is below 3 (the first three valid requests) no
rejection is sent, an authorization request is issued and the session stays
alive; once the prior count has reached 3 (the 4th valid request) the
response is `BNEP_CONN_NOT_ALLOWED` and the session is destroyed. -/
theorem retry_bound_fourth_rejected (s : SetupSession) (pkt : List Nat)
    (lookup : Nat → Option NetworkServer) (ns : NetworkServer)
    (h2 : byteAt pkt 2 = 2) (hlen : pkt.length = 7)
    (htype : byteAt pkt 0 = BNEP_CONTROL) (hctrl : byteAt pkt 1 = BNEP_SETUP_CONN_REQ)
    (hrole : chk_role (parse_src pkt) (parse_dst pkt) = 0)
    (hns : lookup (parse_dst pkt) = some ns) (hen : ns.enable = true) :
    (s.attempts < MAX_SETUP_ATTEMPTS →
      connect_setup_event GIOCond.ioIn s pkt lookup true =
        ⟨{ s with
            dst_role := parse_dst pkt
            src_role := parse_src pkt
            timeout := false
            attempts := s.attempts + 1 }, [], 1, 0, true⟩) ∧
    (MAX_SETUP_ATTEMPTS ≤ s.attempts →
      connect_setup_event GIOCond.ioIn s pkt lookup true =
        ⟨{ s with
            dst_role := parse_dst pkt
            src_role := parse_src pkt
            timeout := false
            attempts := s.attempts + 1 },
          [BNEP_CONN_NOT_ALLOWED], 0, 0, false⟩) := by
  have hsize : ¬(byteAt pkt 2 ≠ 2 ∨ pkt.length ≠ 3 + byteAt pkt 2 * 2) := by
    rw [h2, hlen]; decide
  have hhdr : ¬(byteAt pkt 0 ≠ BNEP_CONTROL ∨ byteAt pkt 1 ≠ BNEP_SETUP_CONN_REQ) := by
    rw [htype, hctrl]; simp
  constructor <;> intro hatt <;>
    simp only [connect_setup_event, if_neg hsize, if_neg hhdr, setup_decision,
      hrole, hns, hen, MAX_SETUP_ATTEMPTS] at * <;>
    simp only [ne_eq, not_true_eq_false, if_false, Bool.false_eq_true, ite_false,
      if_true] <;>
    rw [if_neg (by simp)] <;> split <;> first | rfl | omega

/-- Witness for C4: a session that has already received 3 valid setup
requests gets `NOT_ALLOWED` on the 4th. -/
theorem retry_bound_fourth_rejected_witness :
    MAX_SETUP_ATTEMPTS ≤ ({ demoSession with attempts := 3 } : SetupSession).attempts ∧
    connect_setup_event GIOCond.ioIn { demoSession with attempts := 3 } demoPkt
        demoLookup true =
      ⟨{ demoSession with
          dst_role := parse_dst demoPkt
          src_role := parse_src demoPkt
          timeout := false
          attempts := 4 },
        [BNEP_CONN_NOT_ALLOWED], 0, 0, false⟩ :=
  ⟨by decide,
    (retry_bound_fourth_rejected { demoSession with attempts := 3 } demoPkt
      demoLookup demoServer (by decide) (by decide) (by decide) (by decide)
      (by decide) (by decide) (by decide)).2 (by decide)⟩

/-! ### Theorem C5: one session per peer address -/

/-- Claim C5: an accepted connection whose peer address already has a live
setup session is closed immediately — the session list (and so every
existing session's state) is left exactly as it was and no session is
created; and `connect_event` preserves the invariant that all live sessions
have pairwise distinct addresses. -/
theorem one_session_per_peer (sessions : List SetupSession) (peer : String) :
    ((∃ t ∈ sessions, t.address = peer) →
      connect_event sessions peer = ⟨sessions, true⟩) ∧
    ((sessions.Pairwise fun a b => a.address ≠ b.address) →
      ((connect_event sessions peer).sessions.Pairwise
        fun a b => a.address ≠ b.address)) := by
  constructor
  · intro h
    simp only [connect_event, List.any_eq_true, decide_eq_true_eq]
    rw [if_pos h]
  · intro h
    simp only [connect_event]
    by_cases hdup : ∃ t ∈ sessions, t.address = peer
    · rw [if_pos (by simpa using hdup)]
      exact h
    · rw [if_neg (by simpa using hdup)]
      push_neg at hdup
      simp only [List.pairwise_append, List.pairwise_singleton, List.mem_singleton]
      exact ⟨h, by simp, by
        intro a ha b hb
        subst hb
        simpa [newSetupSession] using hdup a ha⟩

/-- Witness for C5: a second connection from the demo peer while its session
is live is closed and changes nothing. -/
theorem one_session_per_peer_witness :
    (∃ t ∈ [demoSession], t.address = "00:11:22:33:44:55") ∧
    connect_event [demoSession] "00:11:22:33:44:55" = ⟨[demoSession], true⟩ :=
  ⟨by decide, (one_session_per_peer [demoSession] "00:11:22:33:44:55").1 (by decide)⟩

/-! ### Theorem C8: teardown paths are silent -/

/-- Claim C8: deadline expiry (`setup_timeout`) sends no response and removes
the session exactly once from the live set; a transport hangup or socket
error in `connect_setup_event` sends no response, returns FALSE (destroying
the session), and issues a cancellation of the pending authorization exactly
when `attempts` is nonzero, i.e. when an authorization round-trip has been
started. -/
theorem teardown_sends_nothing (sessions : List SetupSession) (s : SetupSession)
    (pkt : List Nat) (lookup : Nat → Option NetworkServer) (dbusOk : Bool) :
    ((setup_timeout sessions s).sent = [] ∧
      (setup_timeout sessions s).sessions.count s = sessions.count s - 1) ∧
    ((connect_setup_event GIOCond.errHup s pkt lookup dbusOk).sent = [] ∧
      (connect_setup_event GIOCond.errHup s pkt lookup dbusOk).keepSource = false ∧
      (0 < s.attempts →
        (connect_setup_event GIOCond.errHup s pkt lookup dbusOk).cancels = 1)) := by
  refine ⟨⟨?_, ?_⟩, ?_, ?_, ?_⟩
  · simp only [setup_timeout, setup_watch_destroy]
    split <;> rfl
  · simp only [setup_timeout, setup_watch_destroy]
    split
    · exact List.count_erase_self s sessions
    · rename_i hmem
      simp [List.count_eq_zero_of_not_mem hmem]
  · rfl
  · rfl
  · intro h
    simp only [connect_setup_event]
    rw [if_pos (by omega)]

/-- Witness for C8: a hung-up session with one authorization round-trip
started (`attempts = 1`) cancels it and is torn down silently. -/
theorem teardown_sends_nothing_witness :
    0 < ({ demoSession with attempts := 1 } : SetupSession).attempts ∧
    (connect_setup_event GIOCond.errHup { demoSession with attempts := 1 } []
      demoLookup true).cancels = 1 :=
  ⟨by decide,
    (teardown_sends_nothing [] { demoSession with attempts := 1 } [] demoLookup
      true).2.2.2 (by decide)⟩

/-! ### Theorems C2, C9, C10: authorization resolution -/

/-- Counterexample for C2: with the session live, the NAP server enabled,
the authorization approved, `bnep_connadd` succeeding and no bridge
configured, a *failing* `bnep_if_up` (last argument `false`) still results
in `BNEP_SUCCESS` on the wire and the peer address being appended to
`clients`, because the source discards the return value of `bnep_if_up` —
contradicting the claim that any bring-up failure yields `NOT_ALLOWED` with
no append. -/
theorem ifup_failure_still_success :
    authorization_callback [napSession] napSession demoLookup
        AuthReply.approved true none true false =
      ⟨[BNEP_SUCCESS], 0,
        some { enable := true, clients := ["00:11:22:33:44:55"] }⟩ ∧
    BNEP_SUCCESS ≠ BNEP_CONN_NOT_ALLOWED := by decide

/-- Claim C2 as amended: for a live session whose authorization resolves
Approved while the target server is present and enabled, the admission
outcome is decided by `bnep_connadd` and (when a bridge is configured)
`bridge_add_interface` alone — if both succeed the session sends
`BNEP_SUCCESS` and the peer address is appended to `connected_clients`,
and if either fails the session sends `BNEP_CONN_NOT_ALLOWED` and the
address is not added; the result of the interface bring-up step
(`bnep_if_up`) is ignored either way. -/
theorem approved_admission_outcome (sessions : List SetupSession)
    (s : SetupSession) (lookup : Nat → Option NetworkServer) (ns : NetworkServer)
    (connaddOk : Bool) (bridge : Option String) (bridgeAddOk ifUpOk : Bool)
    (hmem : s ∈ sessions) (hns : lookup s.dst_role = some ns)
    (hen : ns.enable = true) :
    ((connaddOk = true ∧ (bridge = none ∨ bridgeAddOk = true)) →
      authorization_callback sessions s lookup AuthReply.approved connaddOk
          bridge bridgeAddOk ifUpOk =
        ⟨[BNEP_SUCCESS], 0, some { ns with clients := ns.clients ++ [s.address] }⟩) ∧
    ((connaddOk = false ∨ (bridge ≠ none ∧ bridgeAddOk = false)) →
      authorization_callback sessions s lookup AuthReply.approved connaddOk
          bridge bridgeAddOk ifUpOk =
        ⟨[BNEP_CONN_NOT_ALLOWED], 0, some ns⟩) := by
  constructor
  · rintro ⟨hc, hb⟩
    subst hc
    simp only [authorization_callback, if_pos hmem, hns, hen]
    rcases hb with hb | hb
    · subst hb; rfl
    · subst hb
      cases bridge <;> rfl
  · intro hfail
    simp only [authorization_callback, if_pos hmem, hns, hen]
    rcases hfail with hc | ⟨hb, hba⟩
    · subst hc; rfl
    · subst hba
      rcases bridge with _ | b
      · exact absurd rfl hb
      · cases connaddOk <;> rfl

/-- Witness for C2 (amended): approved, `bnep_connadd` ok, no bridge — the
demo peer is admitted and recorded. -/
theorem approved_admission_outcome_witness :
    napSession ∈ [napSession] ∧
    authorization_callback [napSession] napSession demoLookup
        AuthReply.approved true none false true =
      ⟨[BNEP_SUCCESS], 0,
        some { demoServer with clients := ["00:11:22:33:44:55"] }⟩ :=
  ⟨by decide,
    (approved_admission_outcome [napSession] napSession demoLookup demoServer
        true none false true (by decide) (by decide) (by decide)).1
      ⟨rfl, Or.inl rfl⟩⟩

/-- Claim C9: for a live session whose target server is still present and
enabled, an explicit denial and a no-reply/timeout both produce the uniform
`BNEP_CONN_NOT_ALLOWED` response, and differ only in that the no-reply case
issues one `CancelAuthorizationRequest` against the external service while
the denial issues none; in both cases the resolution event tears the
session down (`live = false` after the resolve step). -/
theorem denial_vs_noreply (sessions : List SetupSession) (s : SetupSession)
    (lookup : Nat → Option NetworkServer) (ns : NetworkServer)
    (connaddOk : Bool) (bridge : Option String) (bridgeAddOk ifUpOk : Bool)
    (hmem : s ∈ sessions) (hns : lookup s.dst_role = some ns)
    (hen : ns.enable = true) :
    authorization_callback sessions s lookup AuthReply.denied connaddOk bridge
        bridgeAddOk ifUpOk = ⟨[BNEP_CONN_NOT_ALLOWED], 0, some ns⟩ ∧
    authorization_callback sessions s lookup AuthReply.noReply connaddOk bridge
        bridgeAddOk ifUpOk = ⟨[BNEP_CONN_NOT_ALLOWED], 1, some ns⟩ ∧
    (∀ p : Nat, (stepNet lookup true ⟨s, p + 1, true⟩ NetEvent.resolve).live = false) := by
  refine ⟨?_, ?_, ?_⟩
  · simp only [authorization_callback, if_pos hmem, hns, hen]; rfl
  · simp only [authorization_callback, if_pos hmem, hns, hen]; rfl
  · intro p
    simp [stepNet]

/-- Witness for C9: the demo session, denied and timed out. -/
theorem denial_vs_noreply_witness :
    napSession ∈ [napSession] ∧
    authorization_callback [napSession] napSession demoLookup AuthReply.denied
        true none true true = ⟨[BNEP_CONN_NOT_ALLOWED], 0, some demoServer⟩ ∧
    authorization_callback [napSession] napSession demoLookup AuthReply.noReply
        true none true true = ⟨[BNEP_CONN_NOT_ALLOWED], 1, some demoServer⟩ :=
  ⟨by decide,
    (denial_vs_noreply [napSession] napSession demoLookup demoServer true none
        true true (by decide) (by decide) (by decide)).1,
    (denial_vs_noreply [napSession] napSession demoLookup demoServer true none
        true true (by decide) (by decide) (by decide)).2.1⟩

/-- Claim C10: approval alone does not admit — when the callback runs for a
live session but the server instance for the session's destination role has
been unregistered (lookup yields nothing) or disabled in the meantime, the
response is `BNEP_CONN_NOT_ALLOWED`, no cancellation is issued, and the
server state (in particular `connected_clients`) is exactly what the fresh
lookup returned: nothing is appended. -/
theorem approval_rechecks_server (sessions : List SetupSession)
    (s : SetupSession) (lookup : Nat → Option NetworkServer)
    (connaddOk : Bool) (bridge : Option String) (bridgeAddOk ifUpOk : Bool)
    (hmem : s ∈ sessions)
    (hns : lookup s.dst_role = none ∨
      ∃ ns, lookup s.dst_role = some ns ∧ ns.enable = false) :
    authorization_callback sessions s lookup AuthReply.approved connaddOk bridge
        bridgeAddOk ifUpOk =
      ⟨[BNEP_CONN_NOT_ALLOWED], 0, lookup s.dst_role⟩ := by
  rcases hns with hn | ⟨ns, hn, hd⟩
  · simp only [authorization_callback, if_pos hmem, hn]
  · simp only [authorization_callback, if_pos hmem, hn, hd]
    rfl

/-- Witness for C10: a session requesting NAP while the NAP server has been
disabled is rejected and the disabled server keeps its empty client list. -/
theorem approval_rechecks_server_witness :
    { demoSession with dst_role := BNEP_SVC_NAP } ∈
      [{ demoSession with dst_role := BNEP_SVC_NAP }] ∧
    authorization_callback [{ demoSession with dst_role := BNEP_SVC_NAP }]
        { demoSession with dst_role := BNEP_SVC_NAP }
        (fun role => if role = BNEP_SVC_NAP then
          some { enable := false, clients := [] } else none)
        AuthReply.approved true none true true =
      ⟨[BNEP_CONN_NOT_ALLOWED], 0, some { enable := false, clients := [] }⟩ := by
  refine ⟨by decide, ?_⟩
  have h := approval_rechecks_server
    [{ demoSession with dst_role := BNEP_SVC_NAP }]
    { demoSession with dst_role := BNEP_SVC_NAP }
    (fun role => if role = BNEP_SVC_NAP then
      some { enable := false, clients := [] } else none)
    true none true true (by decide)
    (Or.inr ⟨{ enable := false, clients := [] }, by decide, rfl⟩)
  simpa using h

/-! ### Theorem C6: outstanding authorization requests -/

/-- Counterexample for C6: a state with two simultaneously pending
`RequestAuthorization` calls for one session is reachable — a fresh session
that receives the same valid setup request twice (both within the retry
bound, neither resolved yet) has issued two authorization requests, because
`connect_setup_event` calls `authorize_connection` again on a retransmission
without cancelling or reusing the pending call. -/
theorem two_pending_auths_reachable :
    (runNet demoLookup true "00:11:22:33:44:55"
      [NetEvent.packet demoPkt, NetEvent.packet demoPkt]).pendingAuths = 2 ∧
    (runNet demoLookup true "00:11:22:33:44:55"
      [NetEvent.packet demoPkt, NetEvent.packet demoPkt]).live = true ∧
    ¬(runNet demoLookup true "00:11:22:33:44:55"
      [NetEvent.packet demoPkt, NetEvent.packet demoPkt]).pendingAuths ≤ 1 := by
  decide

/-- Every `connect_setup_event` invocation either issues no authorization
request and leaves `attempts` no smaller, or issues exactly one and has
incremented `attempts` to a value still within `MAX_SETUP_ATTEMPTS`. -/
theorem setup_event_authReq_shape (cond : GIOCond) (s : SetupSession)
    (pkt : List Nat) (lookup : Nat → Option NetworkServer) (dbusOk : Bool) :
    ((connect_setup_event cond s pkt lookup dbusOk).authReqs = 0 ∧
      s.attempts ≤ (connect_setup_event cond s pkt lookup dbusOk).session.attempts) ∨
    ((connect_setup_event cond s pkt lookup dbusOk).authReqs = 1 ∧
      (connect_setup_event cond s pkt lookup dbusOk).session.attempts = s.attempts + 1 ∧
      (connect_setup_event cond s pkt lookup dbusOk).session.attempts ≤
        MAX_SETUP_ATTEMPTS) := by
  cases cond with
  | nval => exact Or.inl ⟨rfl, Nat.le_refl _⟩
  | errHup => exact Or.inl ⟨rfl, Nat.le_refl _⟩
  | ioIn =>
    simp only [connect_setup_event, setup_decision, MAX_SETUP_ATTEMPTS]
    repeat' split
    all_goals simp
    all_goals omega

/-- The strengthened step invariant: the pending-authorization count never
exceeds the smaller of the session's `attempts` counter and
`MAX_SETUP_ATTEMPTS`. -/
theorem stepNet_pending_invariant (lookup : Nat → Option NetworkServer)
    (dbusOk : Bool) (st : AuthState) (ev : NetEvent)
    (h : st.pendingAuths ≤ min st.session.attempts MAX_SETUP_ATTEMPTS) :
    (stepNet lookup dbusOk st ev).pendingAuths ≤
      min (stepNet lookup dbusOk st ev).session.attempts MAX_SETUP_ATTEMPTS := by
  cases ev with
  | packet pkt =>
    dsimp only [stepNet]
    split
    · rcases setup_event_authReq_shape GIOCond.ioIn st.session pkt lookup dbusOk
        with ⟨h0, hm⟩ | ⟨h1, he, hb⟩
      · dsimp only; rw [h0]; omega
      · dsimp only; rw [h1, he]; omega
    · exact h
  | resolve =>
    dsimp only [stepNet]
    split
    · dsimp only; omega
    · exact h
  | hangup =>
    dsimp only [stepNet]
    split
    · exact h
    · exact h

/-- Claim C6 as amended: a session never has more than
`MAX_SETUP_ATTEMPTS = 3` authorization requests simultaneously pending —
each valid setup request within the retry bound issues one more
`RequestAuthorization` without cancelling the previous one (so up to three
can be outstanding at once, refuting "at most one"), and the 4th valid
request is rejected before `authorize_connection` is reached. -/
theorem pending_auths_bounded (lookup : Nat → Option NetworkServer)
    (dbusOk : Bool) (peer : String) (evs : List NetEvent) :
    (runNet lookup dbusOk peer evs).pendingAuths ≤ MAX_SETUP_ATTEMPTS := by
  have key : ∀ (l : List NetEvent) (st : AuthState),
      st.pendingAuths ≤ min st.session.attempts MAX_SETUP_ATTEMPTS →
      (l.foldl (stepNet lookup dbusOk) st).pendingAuths ≤
        min (l.foldl (stepNet lookup dbusOk) st).session.attempts
          MAX_SETUP_ATTEMPTS := by
    intro l
    induction l with
    | nil => intro st h; exact h
    | cons e tl ih =>
      intro st h
      exact ih _ (stepNet_pending_invariant lookup dbusOk st e h)
  have h0 : (⟨newSetupSession peer, 0, true⟩ : AuthState).pendingAuths ≤
      min (⟨newSetupSession peer, 0, true⟩ : AuthState).session.attempts
        MAX_SETUP_ATTEMPTS := by
    simp [newSetupSession]
  exact le_trans (key evs _ h0) (Nat.min_le_right _ _)
